import Mathlib

/-!
# REST dispatcher of the DNA node (`net/httprestful/restful/server.go`)

A shallow embedding of the request dispatcher: the route constants, `getPath`,
the two action registries built by `registryMethod`, the closures installed by
`initGetHandler` and `initPostHandler`, the `sendRawTransaction` wrapper and the
listener choice of `Start`.

Go strings are embedded as `String`, `int` and `int64` as `Int` (the code compares
them and takes one remainder, nothing can overflow), maps of type
`map[string]interface{}` as `GoMap` (an association list, or the nil map), and a
run-time panic as `Result.panic`. Handlers are external collaborators: they are
functions from the request map to what they return, and every statement holds for
all of them.
-/

namespace restful

/-! ## Go values and maps -/

/-- Dynamic values held in an `interface{}`: the nil interface, a string, an
`int64`, a bool, and `other` for every remaining dynamic type (float64, nested
maps, slices), which the dispatcher stores and passes on but never inspects. -/
inductive Value
  | nil
  | str (s : String)
  | int64 (n : Int)
  | bool (b : Bool)
  | other (tag : Nat)
  deriving DecidableEq, Repr

/-- Look a key up in the entries of an allocated map. -/
def kvGet : List (String × Value) → String → Option Value
  | [], _ => none
  | (k, v) :: rest, key => if k = key then some v else kvGet rest key

/-- Remove a key from the entries of an allocated map. -/
def kvDel : List (String × Value) → String → List (String × Value)
  | [], _ => []
  | (k, v) :: rest, key => if k = key then kvDel rest key else (k, v) :: kvDel rest key

/-- Store a value under a key, replacing the entry the key had. -/
def kvSet (kvs : List (String × Value)) (key : String) (v : Value) : List (String × Value) :=
  (key, v) :: kvDel kvs key

/-- A value of type `map[string]interface{}`: the nil map or an allocated map. -/
inductive GoMap
  | nil
  | mk (kvs : List (String × Value))
  deriving DecidableEq, Repr

/-- Outcome of running Go code that may panic. -/
inductive Result (α : Type)
  | ok (a : α)
  | panic
  deriving DecidableEq, Repr

/-- Sequencing: a panic stops the computation. -/
def Result.bind {α β : Type} : Result α → (α → Result β) → Result β
  | .ok a, f => f a
  | .panic, _ => .panic

namespace GoMap

/-- The two-valued lookup `v, ok := m[key]`; reading the nil map finds nothing. -/
def lookup : GoMap → String → Option Value
  | .nil, _ => none
  | .mk kvs, key => kvGet kvs key

/-- The index expression `m[key]`: the nil interface when the key is absent. -/
def index (m : GoMap) (key : String) : Value :=
  (m.lookup key).getD Value.nil

/-- The assignment `m[key] = v`; it panics on the nil map. -/
def assign : GoMap → String → Value → Result GoMap
  | .nil, _, _ => .panic
  | .mk kvs, key, v => .ok (.mk (kvSet kvs key v))

/-- The builtin `delete(m, key)`; a no-op on the nil map. -/
def delete : GoMap → String → GoMap
  | .nil, _ => .nil
  | .mk kvs, key => .mk (kvDel kvs key)

end GoMap

/-! ## The `strings` functions used by `getPath` -/

namespace strings

/-- Whether `substr` occurs in the character list at some position. -/
def containsList : List Char → List Char → Bool
  | [], substr => substr.isEmpty
  | c :: cs, substr => substr.isPrefixOf (c :: cs) || containsList cs substr

/-- The function `strings.Contains(s, substr)`. -/
def Contains (s substr : String) : Bool :=
  containsList s.data substr.data

/-- The function `strings.TrimRight(s, cutset)`: drop every trailing character that
belongs to `cutset`. -/
def TrimRight (s cutset : String) : String :=
  ⟨(s.data.reverse.dropWhile (fun c => cutset.data.contains c)).reverse⟩

/-- The function `strings.HasPrefix(s, p)`; the source does not call it, it states
what "starts with" means. -/
def startsWith (s p : String) : Bool :=
  p.data.isPrefixOf s.data

end strings

/-! ## Route constants -/

def Api_Getconnectioncount : String := "/api/v1/node/connectioncount"
def Api_Getblockbyheight : String := "/api/v1/block/details/height/:height"
def Api_Getblockbyhash : String := "/api/v1/block/details/hash/:hash"
def Api_Getblockheight : String := "/api/v1/block/height"
def Api_Getblockhash : String := "/api/v1/block/hash/:height"
def Api_Gettransaction : String := "/api/v1/transaction/:hash"
def Api_Getasset : String := "/api/v1/asset/:hash"
def Api_GetUnspendOutput : String := "/api/v1/asset/unspendoutput"
def Api_Restart : String := "/api/v1/restart"
def Api_SendRawTransaction : String := "/api/v1/transaction"
def Api_SendCustomRecordTxByTransfer : String := "/api/v1/custom/transaction/record"
def Api_OauthServerAddr : String := "/api/v1/config/oauthserver/addr"
def Api_NoticeServerAddr : String := "/api/v1/config/noticeserver/addr"
def Api_NoticeServerState : String := "/api/v1/config/noticeserver/state"
def Api_WebsocketState : String := "/api/v1/config/websocket/state"

/-! ## Path matcher -/

/-- The method `getPath`: map a request path to the registry key it denotes. -/
def getPath (url : String) : String :=
  if strings.Contains url (strings.TrimRight Api_Getblockbyheight ":height") then
    Api_Getblockbyheight
  else if strings.Contains url (strings.TrimRight Api_Getblockbyhash ":hash") then
    Api_Getblockbyhash
  else if strings.Contains url (strings.TrimRight Api_Gettransaction ":hash") then
    Api_Gettransaction
  else if strings.Contains url (strings.TrimRight Api_Getasset ":hash") then
    if url ≠ Api_GetUnspendOutput then Api_Getasset else url
  else
    url

/-! ## Error package, envelopes, handlers -/

/-- The parts of package `DNA/net/httprestful/error` the dispatcher reads: two
error codes and the code-to-description table `ErrMap`. Their values are not in
this file, so they are parameters. -/
structure ErrPkg where
  INVALID_METHOD : Int
  ILLEGAL_DATAFORMAT : Int
  ErrMap : List (Int × String)

/-- The index expression `Err.ErrMap[code]`: the empty string for a code that is
not in the table. -/
def ErrPkg.desc (E : ErrPkg) (code : Int) : String :=
  (E.ErrMap.lookup code).getD ""

/-- Modelled from the spec: `ResponsePack` of package `DNA/net/httprestful/common`
is not in this file. It builds a fresh envelope from an error code: an allocated
map with the fields `Action`, `Result`, `Error` and `Desc`, where `Error` holds the
code as an `int64` and the other three are empty strings. -/
def ResponsePack (errCode : Int) : GoMap :=
  .mk [("Action", .str ""), ("Result", .str ""), ("Error", .int64 errCode), ("Desc", .str "")]

/-- What one run of a handler does: the calls `httpwebsocket.SetTxHashMap(txHash,
userid)` it made, in order, and the map it returned unless it panicked. -/
structure Run where
  pushed : List (String × String)
  ret : Result GoMap

/-- The function type `handler`. -/
abbrev handler := GoMap → Run

/-- The struct `Action`. -/
structure Action where
  name : String
  handler : handler

/-- An open listener. -/
structure Listener where
  handle : Nat
  deriving DecidableEq, Repr

/-- The value `&http.Server{Handler: rt.router}`. -/
inductive Server
  | mk
  deriving DecidableEq, Repr

/-- The struct `restServer`; the router is the HTTP multiplexer the closures are
installed in and is not part of this file. -/
structure restServer where
  listener : Option Listener
  server : Option Server
  postMap : List (String × Action)
  getMap : List (String × Action)
  checkAccessToken : String → String → String × Int × Value

/-- The two-valued map lookup `h, ok := m[key]` on a registry. -/
def actionAt : List (String × Action) → String → Option Action
  | [], _ => none
  | (k, a) :: rest, key => if k = key then some a else actionAt rest key

/-- The handler functions `registryMethod` binds to routes. All but the last two live
in package `DNA/net/httprestful/common`. The closure `setWebsocketState` and the
method `Restart` switch the websocket server and schedule a restart of the listener
in a goroutine; the dispatcher runs them like any other handler and no statement
below depends on what they compute, so they are fields here as well. -/
structure Handlers where
  GetConnectionCount : handler
  GetBlockByHeight : handler
  GetBlockByHash : handler
  GetBlockHeight : handler
  GetBlockHash : handler
  GetTransactionByHash : handler
  GetAssetByHash : handler
  GetUnspendOutput : handler
  GetOauthServerAddr : handler
  GetNoticeServerAddr : handler
  SendRawTransaction : handler
  SendRecorByTransferTransaction : handler
  SetOauthServerAddr : handler
  SetNoticeServerAddr : handler
  SetPushBlockFlag : handler
  setWebsocketState : handler
  Restart : handler

/-- The closure `sendRawTransaction` of `registryMethod`. The test `len(userid) > 0`
counts bytes; it holds exactly when the string has a character. -/
def sendRawTransaction (SendRawTransaction : handler) : handler := fun cmd =>
  let run := SendRawTransaction cmd
  match run.ret with
  | .panic => run
  | .ok resp =>
    match resp.index "Userid" with
    | .str userid =>
      if 0 < userid.length then
        match resp.index "Result" with
        | .str txHash => ⟨run.pushed ++ [(txHash, userid)], .ok (resp.delete "Userid")⟩
        | _ => ⟨run.pushed, .panic⟩
      else run
    | _ => run

/-- The method `registryMethod`: fill the two registries. -/
def registryMethod (H : Handlers) (rt : restServer) : restServer :=
  let getMethodMap : List (String × Action) := [
    (Api_Getconnectioncount, ⟨"getconnectioncount", H.GetConnectionCount⟩),
    (Api_Getblockbyheight, ⟨"getblockbyheight", H.GetBlockByHeight⟩),
    (Api_Getblockbyhash, ⟨"getblockbyhash", H.GetBlockByHash⟩),
    (Api_Getblockheight, ⟨"getblockheight", H.GetBlockHeight⟩),
    (Api_Getblockhash, ⟨"getblockhash", H.GetBlockHash⟩),
    (Api_Gettransaction, ⟨"gettransaction", H.GetTransactionByHash⟩),
    (Api_Getasset, ⟨"getasset", H.GetAssetByHash⟩),
    (Api_GetUnspendOutput, ⟨"getunspendoutput", H.GetUnspendOutput⟩),
    (Api_OauthServerAddr, ⟨"getoauthserveraddr", H.GetOauthServerAddr⟩),
    (Api_NoticeServerAddr, ⟨"getnoticeserveraddr", H.GetNoticeServerAddr⟩),
    (Api_Restart, ⟨"restart", H.Restart⟩)]
  let postMethodMap : List (String × Action) := [
    (Api_SendRawTransaction, ⟨"sendrawtransaction", sendRawTransaction H.SendRawTransaction⟩),
    (Api_SendCustomRecordTxByTransfer, ⟨"sendrecord", H.SendRecorByTransferTransaction⟩),
    (Api_OauthServerAddr, ⟨"setoauthserveraddr", H.SetOauthServerAddr⟩),
    (Api_NoticeServerAddr, ⟨"setnoticeserveraddr", H.SetNoticeServerAddr⟩),
    (Api_NoticeServerState, ⟨"setpostblock", H.SetPushBlockFlag⟩),
    (Api_WebsocketState, ⟨"setwebsocketstate", H.setWebsocketState⟩)]
  { rt with postMap := postMethodMap, getMap := getMethodMap }

/-- The function `InitRestServer`. -/
def InitRestServer (H : Handlers) (checkAccessToken : String → String → String × Int × Value) :
    restServer :=
  registryMethod H
    { listener := none, server := none, postMap := [], getMap := [],
      checkAccessToken := checkAccessToken }

/-! ## Requests and the two dispatcher closures -/

/-- What `json.Unmarshal(body, &reqMsg)` does with the request body, `reqMsg` being a
freshly made map. Package `encoding/json` returns an error for malformed input
and for a JSON value that is neither an object nor null; for an object it stores the
members in the map; for the JSON value null it returns no error and sets the
map to nil. -/
inductive Body
  | invalid
  | null
  | object (kvs : List (String × Value))
  deriving DecidableEq, Repr

/-- The value of `reqMsg` after a `json.Unmarshal` that returned no error. -/
def Body.unmarshal : Body → Option GoMap
  | .invalid => none
  | .null => some .nil
  | .object kvs => some (.mk kvs)

/-- What the closures read from `*http.Request`. -/
structure Request where
  Path : String
  FormValue : String → String
  getParam : String → Value
  body : Body

/-- What serving one request did: the handlers that were run (action name and
argument), the `SetTxHashMap` calls, and the envelope handed to `json.Marshal`
and written to the client; `written` is `none` when the closure panicked. -/
structure Served where
  calls : List (String × GoMap)
  pushed : List (String × String)
  written : Option GoMap

/-- The code at label `ResponseWrite`, shared by both closures. -/
def ResponseWrite (E : ErrPkg) (calls : List (String × GoMap)) (pushed : List (String × String))
    (resp : Result GoMap) : Served :=
  match resp with
  | .panic => ⟨calls, pushed, none⟩
  | .ok resp =>
    match resp.index "Error" with
    | .int64 code =>
      match resp.assign "Desc" (.str (E.desc code)) with
      | .ok env => ⟨calls, pushed, some env⟩
      | .panic => ⟨calls, pushed, none⟩
    | _ => ⟨calls, pushed, none⟩

/-- The map `reqMsg` the GET closure makes and fills in before it calls the handler. -/
def getReqMsg (r : Request) (CAkey : String) : GoMap :=
  .mk (kvSet (kvSet (kvSet (kvSet (kvSet (kvSet [] "Height" (r.getParam "height"))
    "Hash" (r.getParam "hash")) "CAkey" (.str CAkey)) "Raw" (.str (r.FormValue "raw")))
    "Addr" (.str (r.FormValue "addr"))) "Assetid" (.str (r.FormValue "assetid")))

/-- The closure `initGetHandler` installs for every key of `rt.getMap`. -/
def initGetHandler (E : ErrPkg) (rt : restServer) (r : Request) : Served :=
  let access_token := r.FormValue "access_token"
  let auth_type := r.FormValue "auth_type"
  match rt.checkAccessToken auth_type access_token with
  | (CAkey, errCode, result) =>
    if errCode > 0 ∧ r.Path ≠ Api_OauthServerAddr then
      ResponseWrite E [] [] ((ResponsePack errCode).assign "Result" result)
    else
      match actionAt rt.getMap (getPath r.Path) with
      | some h =>
        let reqMsg := getReqMsg r CAkey
        let run := h.handler reqMsg
        ResponseWrite E [(h.name, reqMsg)] run.pushed
          (run.ret.bind fun resp => resp.assign "Action" (.str h.name))
      | none => ResponseWrite E [] [] (.ok (ResponsePack E.INVALID_METHOD))

/-- The closure `initPostHandler` installs for every key of `rt.postMap`. -/
def initPostHandler (E : ErrPkg) (rt : restServer) (r : Request) : Served :=
  let access_token := r.FormValue "access_token"
  let auth_type := r.FormValue "auth_type"
  match rt.checkAccessToken auth_type access_token with
  | (CAkey, errCode, result) =>
    if errCode > 0 ∧ r.Path ≠ Api_OauthServerAddr then
      ResponseWrite E [] [] ((ResponsePack errCode).assign "Result" result)
    else
      match actionAt rt.postMap (getPath r.Path) with
      | some h =>
        match r.body.unmarshal with
        | some reqMsg0 =>
          match ((reqMsg0.assign "CAkey" (.str CAkey)).bind fun m =>
              m.assign "Raw" (.str (r.FormValue "raw"))).bind fun m =>
              m.assign "Userid" (.str (r.FormValue "userid")) with
          | .ok reqMsg =>
            let run := h.handler reqMsg
            ResponseWrite E [(h.name, reqMsg)] run.pushed
              (run.ret.bind fun resp => resp.assign "Action" (.str h.name))
          | .panic => ⟨[], [], none⟩
        | none =>
          ResponseWrite E [] [] ((ResponsePack E.ILLEGAL_DATAFORMAT).assign "Action" (.str h.name))
      | none => ResponseWrite E [] [] (.ok .nil)

/-- The routes the POST closure is installed under: the loop
`for k, _ := range rt.postMap` of `initPostHandler` calls `rt.router.Post(k, ...)` once
for every key of `rt.postMap`. -/
def postRoutes (rt : restServer) : List String :=
  rt.postMap.map Prod.fst

/-! ## Listener bootstrap -/

/-- Answers of the operating system to the calls `Start` and `initTlsListen` make. -/
structure Sys where
  LoadX509KeyPair : Except String Unit
  tlsListen : Int → Except String Listener
  netListen : Int → Except String Listener

/-- The calls `Start` makes, in order. -/
inductive StartStep
  | initTlsListen
  | netListen (port : Int)
  | Serve (l : Listener)
  deriving DecidableEq, Repr

/-- The method `initTlsListen`: load the key pair, then listen with TLS on the port. -/
def initTlsListen (sys : Sys) (HttpRestPort : Int) : Except String Listener :=
  match sys.LoadX509KeyPair with
  | .error err => .error err
  | .ok _ => sys.tlsListen HttpRestPort

/-- The method `Start`, up to the point where it blocks in `Serve`: the server
fields as it leaves them and the calls it made. `HttpRestPort` is the configured
`Parameters.HttpRestPort`; the remainder `%` of Go truncates towards zero. -/
def Start (HttpRestPort : Int) (sys : Sys) (rt : restServer) : restServer × List StartStep :=
  if HttpRestPort = 0 then
    (rt, [])
  else
    let tlsFlag := false
    if tlsFlag = true ∨ HttpRestPort.tmod 1000 = 443 then
      match initTlsListen sys HttpRestPort with
      | .error _ => ({ rt with listener := none }, [.initTlsListen])
      | .ok l => ({ rt with listener := some l, server := some .mk }, [.initTlsListen, .Serve l])
    else
      match sys.netListen HttpRestPort with
      | .error _ => ({ rt with listener := none }, [.netListen HttpRestPort])
      | .ok l =>
        ({ rt with listener := some l, server := some .mk }, [.netListen HttpRestPort, .Serve l])

/-! ## Sample collaborators for the worked examples -/

/-- A sample error package: codes and descriptions for the worked examples. -/
def sampleErr : ErrPkg :=
  ⟨42001, 41003,
    [(0, "SUCCESS"), (41001, "SESSION EXPIRED"), (41003, "ILLEGAL DATAFORMAT"),
     (42001, "INVALID METHOD")]⟩

/-- A sample collaborator: it answers every call with the same well-formed envelope. -/
def sampleReply (code : Int) (result : Value) : handler :=
  fun _ => ⟨[], .ok (.mk [("Error", .int64 code), ("Desc", .str "set by handler"),
    ("Result", result)])⟩

/-- Sample handlers: each answers with success and its own name as result. -/
def sampleHandlers : Handlers where
  GetConnectionCount := sampleReply 0 (.str "GetConnectionCount")
  GetBlockByHeight := sampleReply 0 (.str "GetBlockByHeight")
  GetBlockByHash := sampleReply 0 (.str "GetBlockByHash")
  GetBlockHeight := sampleReply 0 (.str "GetBlockHeight")
  GetBlockHash := sampleReply 0 (.str "GetBlockHash")
  GetTransactionByHash := sampleReply 0 (.str "GetTransactionByHash")
  GetAssetByHash := sampleReply 0 (.str "GetAssetByHash")
  GetUnspendOutput := sampleReply 0 (.str "GetUnspendOutput")
  GetOauthServerAddr := sampleReply 0 (.str "GetOauthServerAddr")
  GetNoticeServerAddr := sampleReply 0 (.str "GetNoticeServerAddr")
  SendRawTransaction := sampleReply 0 (.str "SendRawTransaction")
  SendRecorByTransferTransaction := sampleReply 0 (.str "SendRecorByTransferTransaction")
  SetOauthServerAddr := sampleReply 0 (.str "SetOauthServerAddr")
  SetNoticeServerAddr := sampleReply 0 (.str "SetNoticeServerAddr")
  SetPushBlockFlag := sampleReply 0 (.str "SetPushBlockFlag")
  setWebsocketState := sampleReply 0 (.str "setWebsocketState")
  Restart := sampleReply 0 (.str "Restart")

/-- A token check that rejects every token with code 41001. -/
def denyToken : String → String → String × Int × Value :=
  fun _ _ => ("", 41001, .str "token expired")

/-- A token check that accepts every token for the caller `CA1`. -/
def allowToken : String → String → String × Int × Value :=
  fun _ _ => ("CA1", 0, .nil)

/-- A sample request: the given path and body, no form values, empty path parameters. -/
def sampleRequest (path : String) (body : Body) : Request :=
  ⟨path, fun _ => "", fun _ => .str "", body⟩

/-- A sample `SendRawTransaction` whose answer carries an empty `Userid`. -/
def emptyUseridReply : handler :=
  fun _ => ⟨[], .ok (.mk [("Error", .int64 0), ("Result", .str "2f0a"), ("Userid", .str "")])⟩

/-- A sample `SendRawTransaction` whose answer carries the `Userid` of a caller. -/
def ownedReply : handler :=
  fun _ => ⟨[], .ok (.mk [("Error", .int64 0), ("Result", .str "2f0a"), ("Userid", .str "u7")])⟩

/-- A sample operating system on which every listen call succeeds. -/
def sampleSys : Sys :=
  ⟨.ok (), fun _ => .ok ⟨1⟩, fun _ => .ok ⟨2⟩⟩

/-! ## Maps: lookup after assignment and deletion -/

theorem kvGet_kvDel_self (kvs : List (String × Value)) (key : String) :
    kvGet (kvDel kvs key) key = none := by
  induction kvs with
  | nil => rfl
  | cons p rest ih =>
    obtain ⟨k, v⟩ := p
    by_cases h : k = key
    · simp [kvDel, h, ih]
    · simp [kvDel, kvGet, h, ih]

theorem kvGet_kvDel_ne (kvs : List (String × Value)) (key other : String) (hne : other ≠ key) :
    kvGet (kvDel kvs key) other = kvGet kvs other := by
  induction kvs with
  | nil => rfl
  | cons p rest ih =>
    obtain ⟨k, v⟩ := p
    by_cases h : k = key
    · have hk : ¬ k = other := fun e => hne (e ▸ h)
      simp only [kvDel, kvGet, if_pos h, if_neg hk, ih]
    · by_cases h2 : k = other
      · simp only [kvDel, kvGet, if_neg h, if_pos h2]
      · simp only [kvDel, kvGet, if_neg h, if_neg h2, ih]

theorem kvGet_kvSet_self (kvs : List (String × Value)) (key : String) (v : Value) :
    kvGet (kvSet kvs key v) key = some v := by
  simp [kvSet, kvGet]

theorem kvGet_kvSet_ne (kvs : List (String × Value)) (key other : String) (v : Value)
    (hne : other ≠ key) : kvGet (kvSet kvs key v) other = kvGet kvs other := by
  have h : ¬ key = other := fun e => hne e.symm
  simp [kvSet, kvGet, h, kvGet_kvDel_ne kvs key other hne]

/-- Reading a key that holds an `int64` means the map is allocated and has the key. -/
theorem index_int64 (resp : GoMap) (key : String) (code : Int)
    (h : resp.index key = .int64 code) :
    ∃ kvs, resp = .mk kvs ∧ kvGet kvs key = some (.int64 code) := by
  cases resp with
  | nil => simp [GoMap.index, GoMap.lookup] at h
  | mk kvs =>
    refine ⟨kvs, rfl, ?_⟩
    simp only [GoMap.index, GoMap.lookup] at h
    cases hg : kvGet kvs key with
    | none => simp [hg] at h
    | some v => simp [hg] at h; simp [h]

/-! ## The shared response-writing step -/

theorem ResponseWrite_calls (E : ErrPkg) (calls : List (String × GoMap))
    (pushed : List (String × String)) (resp : Result GoMap) :
    (ResponseWrite E calls pushed resp).calls = calls := by
  unfold ResponseWrite
  split
  · rfl
  · split
    · split <;> rfl
    · rfl

/-- An envelope with an `int64` error code is written with the description of that
code and is otherwise unchanged. -/
theorem ResponseWrite_ok (E : ErrPkg) (calls : List (String × GoMap))
    (pushed : List (String × String)) (resp : GoMap) (code : Int)
    (h : resp.index "Error" = .int64 code) :
    ∃ env, (ResponseWrite E calls pushed (.ok resp)).written = some env ∧
      env.lookup "Desc" = some (.str (E.desc code)) ∧
      env.lookup "Error" = some (.int64 code) ∧
      ∀ key, key ≠ "Desc" → env.lookup key = resp.lookup key := by
  obtain ⟨kvs, rfl, hk⟩ := index_int64 resp "Error" code h
  refine ⟨.mk (kvSet kvs "Desc" (.str (E.desc code))), ?_, ?_, ?_, ?_⟩
  · simp [ResponseWrite, h, GoMap.assign]
  · simp [GoMap.lookup, kvGet_kvSet_self]
  · simp [GoMap.lookup, kvGet_kvSet_ne kvs "Desc" "Error" _ (by decide), hk]
  · intro key hkey
    simp [GoMap.lookup, kvGet_kvSet_ne kvs "Desc" key _ hkey]

/-- Whatever is written came from a map with an `int64` error code and carries the
description of that code. -/
theorem ResponseWrite_written (E : ErrPkg) (calls : List (String × GoMap))
    (pushed : List (String × String)) (r : Result GoMap) (env : GoMap)
    (h : (ResponseWrite E calls pushed r).written = some env) :
    ∃ resp code, r = .ok resp ∧ resp.index "Error" = .int64 code ∧
      env.lookup "Desc" = some (.str (E.desc code)) ∧
      env.lookup "Error" = some (.int64 code) ∧
      ∀ key, key ≠ "Desc" → env.lookup key = resp.lookup key := by
  cases r with
  | panic => simp [ResponseWrite] at h
  | ok resp =>
    cases hv : resp.index "Error" with
    | int64 code =>
      obtain ⟨env2, hw, hd, he, hk⟩ := ResponseWrite_ok E calls pushed resp code hv
      rw [hw] at h
      cases h
      exact ⟨resp, code, rfl, hv, hd, he, hk⟩
    | nil => simp [ResponseWrite, hv] at h
    | str s => simp [ResponseWrite, hv] at h
    | bool b => simp [ResponseWrite, hv] at h
    | other t => simp [ResponseWrite, hv] at h

/-! ## Authorization gate -/

/-- C1: for a GET or POST request whose path is not the oauth-server-address route, a
token check that reports `errCode > 0` with `detail` makes both closures write an
envelope with `Error = errCode` and `Result = detail`, and no registered handler
is run, whatever the registries, the path, the form values and the body are. -/
theorem gate_short_circuits (E : ErrPkg) (rt : restServer) (r : Request)
    (callerKey : String) (errCode : Int) (detail : Value)
    (htoken : rt.checkAccessToken (r.FormValue "auth_type") (r.FormValue "access_token")
      = (callerKey, errCode, detail))
    (herr : errCode > 0) (hpath : r.Path ≠ Api_OauthServerAddr) :
    ((∃ env, (initGetHandler E rt r).written = some env ∧
        env.lookup "Error" = some (.int64 errCode) ∧ env.lookup "Result" = some detail) ∧
      (initGetHandler E rt r).calls = [] ∧ (initGetHandler E rt r).pushed = []) ∧
    ((∃ env, (initPostHandler E rt r).written = some env ∧
        env.lookup "Error" = some (.int64 errCode) ∧ env.lookup "Result" = some detail) ∧
      (initPostHandler E rt r).calls = [] ∧ (initPostHandler E rt r).pushed = []) := by
  have hgate : errCode > 0 ∧ r.Path ≠ Api_OauthServerAddr := ⟨herr, hpath⟩
  constructor
  · simp only [initGetHandler, htoken, if_pos hgate]
    simp [ResponsePack, GoMap.assign, ResponseWrite, GoMap.index, GoMap.lookup, kvSet, kvDel,
      kvGet]
  · simp only [initPostHandler, htoken, if_pos hgate]
    simp [ResponsePack, GoMap.assign, ResponseWrite, GoMap.index, GoMap.lookup, kvSet, kvDel,
      kvGet]

/-- Worked example for C1: with a rejecting token check, a GET or POST to the
block-height route is answered with code 41001 and no handler runs. -/
theorem gate_short_circuits_witness :
    ((∃ env, (initGetHandler sampleErr (InitRestServer sampleHandlers denyToken)
          (sampleRequest "/api/v1/block/height" .invalid)).written = some env ∧
        env.lookup "Error" = some (.int64 41001) ∧
        env.lookup "Result" = some (.str "token expired")) ∧
      (initGetHandler sampleErr (InitRestServer sampleHandlers denyToken)
          (sampleRequest "/api/v1/block/height" .invalid)).calls = [] ∧
      (initGetHandler sampleErr (InitRestServer sampleHandlers denyToken)
          (sampleRequest "/api/v1/block/height" .invalid)).pushed = []) ∧
    ((∃ env, (initPostHandler sampleErr (InitRestServer sampleHandlers denyToken)
          (sampleRequest "/api/v1/block/height" .invalid)).written = some env ∧
        env.lookup "Error" = some (.int64 41001) ∧
        env.lookup "Result" = some (.str "token expired")) ∧
      (initPostHandler sampleErr (InitRestServer sampleHandlers denyToken)
          (sampleRequest "/api/v1/block/height" .invalid)).calls = [] ∧
      (initPostHandler sampleErr (InitRestServer sampleHandlers denyToken)
          (sampleRequest "/api/v1/block/height" .invalid)).pushed = []) :=
  gate_short_circuits sampleErr (InitRestServer sampleHandlers denyToken)
    (sampleRequest "/api/v1/block/height" .invalid) "" 41001 (.str "token expired")
    rfl (by decide) (by decide)

/-! ## Running a registered handler -/

/-- The handler branch of both closures: the handler is recorded as run; a returned
map with an `int64` error code is written with that code, the action name and the
description of the code; and nothing is written otherwise. -/
theorem ResponseWrite_handler (E : ErrPkg) (name : String) (reqMsg : GoMap) (run : Run) :
    (ResponseWrite E [(name, reqMsg)] run.pushed
        (run.ret.bind fun resp => resp.assign "Action" (.str name))).calls = [(name, reqMsg)] ∧
    (∀ resp code, run.ret = .ok resp → resp.index "Error" = .int64 code →
      ∃ env, (ResponseWrite E [(name, reqMsg)] run.pushed
          (run.ret.bind fun resp => resp.assign "Action" (.str name))).written = some env ∧
        env.lookup "Error" = some (.int64 code) ∧
        env.lookup "Desc" = some (.str (E.desc code)) ∧
        env.lookup "Action" = some (.str name) ∧
        ∀ key, key ≠ "Desc" → key ≠ "Action" → env.lookup key = resp.lookup key) ∧
    (∀ env, (ResponseWrite E [(name, reqMsg)] run.pushed
          (run.ret.bind fun resp => resp.assign "Action" (.str name))).written = some env →
      ∃ resp code, run.ret = .ok resp ∧ resp.index "Error" = .int64 code ∧
        env.lookup "Error" = some (.int64 code)) := by
  refine ⟨ResponseWrite_calls _ _ _ _, ?_, ?_⟩
  · intro resp code hret herr
    obtain ⟨kvs, rfl, hk⟩ := index_int64 resp "Error" code herr
    have hidx : (GoMap.mk (kvSet kvs "Action" (.str name))).index "Error" = .int64 code := by
      simp [GoMap.index, GoMap.lookup, kvGet_kvSet_ne kvs "Action" "Error" _ (by decide), hk]
    obtain ⟨env, hw, hd, he, hrest⟩ :=
      ResponseWrite_ok E [(name, reqMsg)] run.pushed _ code hidx
    refine ⟨env, ?_, he, hd, ?_, ?_⟩
    · rw [hret]
      exact hw
    · rw [hrest "Action" (by decide)]
      simp [GoMap.lookup, kvGet_kvSet_self]
    · intro key h1 h2
      rw [hrest key h1]
      simp [GoMap.lookup, kvGet_kvSet_ne kvs "Action" key _ h2]
  · intro env hw
    obtain ⟨resp2, code, hbind, hidx, _, he, _⟩ := ResponseWrite_written E _ _ _ env hw
    cases hret : run.ret with
    | panic => rw [hret] at hbind; simp [Result.bind] at hbind
    | ok resp =>
      rw [hret] at hbind
      cases resp with
      | nil => simp [Result.bind, GoMap.assign] at hbind
      | mk kvs =>
        simp only [Result.bind, GoMap.assign, Result.ok.injEq] at hbind
        subst hbind
        refine ⟨.mk kvs, code, rfl, ?_, he⟩
        simpa [GoMap.index, GoMap.lookup, kvGet_kvSet_ne kvs "Action" "Error" _ (by decide)]
          using hidx

/-! ## The exempt route and the unspent-output route -/

/-- A GET request that passes the gate and whose key is registered runs that action. -/
theorem initGetHandler_registered (E : ErrPkg) (rt : restServer) (r : Request)
    (callerKey : String) (errCode : Int) (detail : Value) (h : Action)
    (htoken : rt.checkAccessToken (r.FormValue "auth_type") (r.FormValue "access_token")
      = (callerKey, errCode, detail))
    (hgate : ¬ (errCode > 0 ∧ r.Path ≠ Api_OauthServerAddr))
    (hreg : actionAt rt.getMap (getPath r.Path) = some h) :
    initGetHandler E rt r =
      ResponseWrite E [(h.name, getReqMsg r callerKey)]
        (h.handler (getReqMsg r callerKey)).pushed
        ((h.handler (getReqMsg r callerKey)).ret.bind fun resp =>
          resp.assign "Action" (.str h.name)) := by
  simp only [initGetHandler, htoken, if_neg hgate, hreg]

/-- A POST request that passes the gate, whose key is registered and whose body is a
JSON object runs that action on the members of the body plus `CAkey`, `Raw`, `Userid`. -/
theorem initPostHandler_registered (E : ErrPkg) (rt : restServer) (r : Request)
    (callerKey : String) (errCode : Int) (detail : Value) (h : Action)
    (kvs : List (String × Value))
    (htoken : rt.checkAccessToken (r.FormValue "auth_type") (r.FormValue "access_token")
      = (callerKey, errCode, detail))
    (hgate : ¬ (errCode > 0 ∧ r.Path ≠ Api_OauthServerAddr))
    (hreg : actionAt rt.postMap (getPath r.Path) = some h)
    (hbody : r.body = .object kvs) :
    initPostHandler E rt r =
      ResponseWrite E
        [(h.name, .mk (kvSet (kvSet (kvSet kvs "CAkey" (.str callerKey))
          "Raw" (.str (r.FormValue "raw"))) "Userid" (.str (r.FormValue "userid"))))]
        (h.handler (.mk (kvSet (kvSet (kvSet kvs "CAkey" (.str callerKey))
          "Raw" (.str (r.FormValue "raw"))) "Userid" (.str (r.FormValue "userid"))))).pushed
        ((h.handler (.mk (kvSet (kvSet (kvSet kvs "CAkey" (.str callerKey))
          "Raw" (.str (r.FormValue "raw"))) "Userid" (.str (r.FormValue "userid"))))).ret.bind
          fun resp => resp.assign "Action" (.str h.name)) := by
  simp only [initPostHandler, htoken, if_neg hgate, hreg, hbody, Body.unmarshal, GoMap.assign,
    Result.bind]

/-- C2: on the path `/api/v1/config/oauthserver/addr` the gate never short-circuits,
whatever the token check reports. A GET runs the handler registered as
`getoauthserveraddr`; a POST whose body is a JSON object runs the handler
registered as `setoauthserveraddr`. In both cases a returned map with an `int64`
error code is written with that code, and whatever is written carries the error
code the handler returned. -/
theorem oauth_route_reaches_handler (E : ErrPkg) (H : Handlers)
    (check : String → String → String × Int × Value) (r : Request)
    (callerKey : String) (errCode : Int) (detail : Value)
    (htoken : check (r.FormValue "auth_type") (r.FormValue "access_token")
      = (callerKey, errCode, detail))
    (hpath : r.Path = Api_OauthServerAddr) :
    ((initGetHandler E (InitRestServer H check) r).calls
        = [("getoauthserveraddr", getReqMsg r callerKey)] ∧
      (∀ resp code, (H.GetOauthServerAddr (getReqMsg r callerKey)).ret = .ok resp →
        resp.index "Error" = .int64 code →
        ∃ env, (initGetHandler E (InitRestServer H check) r).written = some env ∧
          env.lookup "Error" = some (.int64 code) ∧
          env.lookup "Action" = some (.str "getoauthserveraddr")) ∧
      (∀ env, (initGetHandler E (InitRestServer H check) r).written = some env →
        ∃ resp code, (H.GetOauthServerAddr (getReqMsg r callerKey)).ret = .ok resp ∧
          resp.index "Error" = .int64 code ∧ env.lookup "Error" = some (.int64 code))) ∧
    (∀ kvs, r.body = .object kvs →
      (initPostHandler E (InitRestServer H check) r).calls
        = [("setoauthserveraddr", .mk (kvSet (kvSet (kvSet kvs "CAkey" (.str callerKey))
            "Raw" (.str (r.FormValue "raw"))) "Userid" (.str (r.FormValue "userid"))))] ∧
      (∀ resp code,
        (H.SetOauthServerAddr (.mk (kvSet (kvSet (kvSet kvs "CAkey" (.str callerKey))
            "Raw" (.str (r.FormValue "raw"))) "Userid" (.str (r.FormValue "userid"))))).ret
          = .ok resp →
        resp.index "Error" = .int64 code →
        ∃ env, (initPostHandler E (InitRestServer H check) r).written = some env ∧
          env.lookup "Error" = some (.int64 code) ∧
          env.lookup "Action" = some (.str "setoauthserveraddr")) ∧
      (∀ env, (initPostHandler E (InitRestServer H check) r).written = some env →
        ∃ resp code,
          (H.SetOauthServerAddr (.mk (kvSet (kvSet (kvSet kvs "CAkey" (.str callerKey))
            "Raw" (.str (r.FormValue "raw"))) "Userid" (.str (r.FormValue "userid"))))).ret
            = .ok resp ∧
          resp.index "Error" = .int64 code ∧ env.lookup "Error" = some (.int64 code))) := by
  have hgate : ¬ (errCode > 0 ∧ r.Path ≠ Api_OauthServerAddr) := fun h => h.2 hpath
  have htok : (InitRestServer H check).checkAccessToken (r.FormValue "auth_type")
      (r.FormValue "access_token") = (callerKey, errCode, detail) := htoken
  constructor
  · have hreg : actionAt (InitRestServer H check).getMap (getPath r.Path)
        = some ⟨"getoauthserveraddr", H.GetOauthServerAddr⟩ := by rw [hpath]; rfl
    rw [initGetHandler_registered E _ r callerKey errCode detail _ htok hgate hreg]
    obtain ⟨h1, h2, h3⟩ := ResponseWrite_handler E "getoauthserveraddr" (getReqMsg r callerKey)
      (H.GetOauthServerAddr (getReqMsg r callerKey))
    refine ⟨h1, ?_, h3⟩
    intro resp code hret herr
    obtain ⟨env, hw, he, _, ha, _⟩ := h2 resp code hret herr
    exact ⟨env, hw, he, ha⟩
  · intro kvs hbody
    have hreg : actionAt (InitRestServer H check).postMap (getPath r.Path)
        = some ⟨"setoauthserveraddr", H.SetOauthServerAddr⟩ := by rw [hpath]; rfl
    rw [initPostHandler_registered E _ r callerKey errCode detail _ kvs htok hgate hreg hbody]
    obtain ⟨h1, h2, h3⟩ := ResponseWrite_handler E "setoauthserveraddr"
      (.mk (kvSet (kvSet (kvSet kvs "CAkey" (.str callerKey))
        "Raw" (.str (r.FormValue "raw"))) "Userid" (.str (r.FormValue "userid"))))
      (H.SetOauthServerAddr (.mk (kvSet (kvSet (kvSet kvs "CAkey" (.str callerKey))
        "Raw" (.str (r.FormValue "raw"))) "Userid" (.str (r.FormValue "userid")))))
    refine ⟨h1, ?_, h3⟩
    intro resp code hret herr
    obtain ⟨env, hw, he, _, ha, _⟩ := h2 resp code hret herr
    exact ⟨env, hw, he, ha⟩

/-- Worked example for C2: with a token check that rejects every token with code
41001, a GET and a POST with body `{}` to the oauth route still run their handlers
and the written envelope carries the code 0 the sample handlers return. -/
theorem oauth_route_reaches_handler_witness :
    denyToken "" "" = ("", 41001, .str "token expired") ∧
    (sampleRequest Api_OauthServerAddr (.object [])).Path = Api_OauthServerAddr ∧
    (initGetHandler sampleErr (InitRestServer sampleHandlers denyToken)
        (sampleRequest Api_OauthServerAddr (.object []))).calls
      = [("getoauthserveraddr", getReqMsg (sampleRequest Api_OauthServerAddr (.object [])) "")] ∧
    (∃ env, (initGetHandler sampleErr (InitRestServer sampleHandlers denyToken)
        (sampleRequest Api_OauthServerAddr (.object []))).written = some env ∧
      env.lookup "Error" = some (.int64 0) ∧
      env.lookup "Action" = some (.str "getoauthserveraddr")) ∧
    (∃ env, (initPostHandler sampleErr (InitRestServer sampleHandlers denyToken)
        (sampleRequest Api_OauthServerAddr (.object []))).written = some env ∧
      env.lookup "Error" = some (.int64 0) ∧
      env.lookup "Action" = some (.str "setoauthserveraddr")) :=
  ⟨rfl, rfl,
    (oauth_route_reaches_handler sampleErr sampleHandlers denyToken
      (sampleRequest Api_OauthServerAddr (.object [])) "" 41001 (.str "token expired")
      rfl rfl).1.1,
    (oauth_route_reaches_handler sampleErr sampleHandlers denyToken
      (sampleRequest Api_OauthServerAddr (.object [])) "" 41001 (.str "token expired")
      rfl rfl).1.2.1 _ 0 rfl (by decide),
    ((oauth_route_reaches_handler sampleErr sampleHandlers denyToken
      (sampleRequest Api_OauthServerAddr (.object [])) "" 41001 (.str "token expired")
      rfl rfl).2 [] rfl).2.1 _ 0 rfl (by decide)⟩

/-- C4: `getPath` maps the literal path `/api/v1/asset/unspendoutput` to itself and
not to the asset-by-hash template, so a GET request to it that passes the gate
(`errCode` not positive) runs the action named `getunspendoutput`, never the one
named `getasset`, and a well-formed answer of that handler is written under the
action name `getunspendoutput`. -/
theorem unspendoutput_runs_getunspendoutput (E : ErrPkg) (H : Handlers)
    (check : String → String → String × Int × Value) (r : Request)
    (callerKey : String) (errCode : Int) (detail : Value)
    (htoken : check (r.FormValue "auth_type") (r.FormValue "access_token")
      = (callerKey, errCode, detail))
    (hauth : ¬ errCode > 0) (hpath : r.Path = "/api/v1/asset/unspendoutput") :
    getPath "/api/v1/asset/unspendoutput" = "/api/v1/asset/unspendoutput" ∧
    getPath "/api/v1/asset/unspendoutput" ≠ "/api/v1/asset/:hash" ∧
    actionAt (InitRestServer H check).getMap (getPath "/api/v1/asset/unspendoutput")
      = some ⟨"getunspendoutput", H.GetUnspendOutput⟩ ∧
    (initGetHandler E (InitRestServer H check) r).calls
      = [("getunspendoutput", getReqMsg r callerKey)] ∧
    (∀ c ∈ (initGetHandler E (InitRestServer H check) r).calls, c.1 ≠ "getasset") ∧
    (∀ resp code, (H.GetUnspendOutput (getReqMsg r callerKey)).ret = .ok resp →
      resp.index "Error" = .int64 code →
      ∃ env, (initGetHandler E (InitRestServer H check) r).written = some env ∧
        env.lookup "Error" = some (.int64 code) ∧
        env.lookup "Action" = some (.str "getunspendoutput")) := by
  have hgate : ¬ (errCode > 0 ∧ r.Path ≠ Api_OauthServerAddr) := fun h => hauth h.1
  have htok : (InitRestServer H check).checkAccessToken (r.FormValue "auth_type")
      (r.FormValue "access_token") = (callerKey, errCode, detail) := htoken
  have hreg : actionAt (InitRestServer H check).getMap (getPath r.Path)
      = some ⟨"getunspendoutput", H.GetUnspendOutput⟩ := by rw [hpath]; rfl
  have hrun := initGetHandler_registered E _ r callerKey errCode detail _ htok hgate hreg
  obtain ⟨h1, h2, _⟩ := ResponseWrite_handler E "getunspendoutput" (getReqMsg r callerKey)
    (H.GetUnspendOutput (getReqMsg r callerKey))
  refine ⟨by decide, by decide, rfl, ?_, ?_, ?_⟩
  · rw [hrun]; exact h1
  · rw [hrun, h1]
    intro c hc
    simp only [List.mem_singleton] at hc
    subst hc
    show "getunspendoutput" ≠ "getasset"
    decide
  · intro resp code hret herr
    obtain ⟨env, hw, he, _, ha, _⟩ := h2 resp code hret herr
    exact ⟨env, by rw [hrun]; exact hw, he, ha⟩

/-- Worked example for C4: with an accepting token check the GET request to the
unspent-output path runs `getunspendoutput`. -/
theorem unspendoutput_runs_getunspendoutput_witness :
    allowToken "" "" = ("CA1", 0, .nil) ∧ ¬ (0 : Int) > 0 ∧
    (initGetHandler sampleErr (InitRestServer sampleHandlers allowToken)
        (sampleRequest "/api/v1/asset/unspendoutput" .invalid)).calls
      = [("getunspendoutput",
          getReqMsg (sampleRequest "/api/v1/asset/unspendoutput" .invalid) "CA1")] :=
  ⟨rfl, by decide,
    (unspendoutput_runs_getunspendoutput sampleErr sampleHandlers allowToken
      (sampleRequest "/api/v1/asset/unspendoutput" .invalid) "CA1" 0 .nil
      rfl (by decide) rfl).2.2.2.1⟩

/-! ## What the closures write -/

theorem initGetHandler_written (E : ErrPkg) (rt : restServer) (r : Request) (env : GoMap)
    (h : (initGetHandler E rt r).written = some env) :
    ∃ code, env.lookup "Error" = some (.int64 code) ∧
      env.lookup "Desc" = some (.str (E.desc code)) := by
  unfold initGetHandler at h
  simp only at h
  split at h
  · obtain ⟨_, code, _, _, hd, he, _⟩ := ResponseWrite_written E _ _ _ env h
    exact ⟨code, he, hd⟩
  · split at h
    · obtain ⟨_, code, _, _, hd, he, _⟩ := ResponseWrite_written E _ _ _ env h
      exact ⟨code, he, hd⟩
    · obtain ⟨_, code, _, _, hd, he, _⟩ := ResponseWrite_written E _ _ _ env h
      exact ⟨code, he, hd⟩

theorem initPostHandler_written (E : ErrPkg) (rt : restServer) (r : Request) (env : GoMap)
    (h : (initPostHandler E rt r).written = some env) :
    ∃ code, env.lookup "Error" = some (.int64 code) ∧
      env.lookup "Desc" = some (.str (E.desc code)) := by
  unfold initPostHandler at h
  simp only at h
  split at h
  · obtain ⟨_, code, _, _, hd, he, _⟩ := ResponseWrite_written E _ _ _ env h
    exact ⟨code, he, hd⟩
  · split at h
    · split at h
      · split at h
        · obtain ⟨_, code, _, _, hd, he, _⟩ := ResponseWrite_written E _ _ _ env h
          exact ⟨code, he, hd⟩
        · simp at h
      · obtain ⟨_, code, _, _, hd, he, _⟩ := ResponseWrite_written E _ _ _ env h
        exact ⟨code, he, hd⟩
    · obtain ⟨_, code, _, _, hd, he, _⟩ := ResponseWrite_written E _ _ _ env h
      exact ⟨code, he, hd⟩

/-! ## Unregistered keys and malformed bodies -/

/-- The GET closure on a key that is not registered: no handler runs and the
envelope of `Err.INVALID_METHOD` is written with its description. -/
theorem initGetHandler_unregistered (E : ErrPkg) (rt : restServer) (r : Request)
    (callerKey : String) (errCode : Int) (detail : Value)
    (htoken : rt.checkAccessToken (r.FormValue "auth_type") (r.FormValue "access_token")
      = (callerKey, errCode, detail))
    (hgate : ¬ (errCode > 0 ∧ r.Path ≠ Api_OauthServerAddr))
    (hreg : actionAt rt.getMap (getPath r.Path) = none) :
    (∃ env, (initGetHandler E rt r).written = some env ∧ env ≠ .nil ∧
      env.lookup "Error" = some (.int64 E.INVALID_METHOD) ∧
      env.lookup "Desc" = some (.str (E.desc E.INVALID_METHOD))) ∧
    (initGetHandler E rt r).calls = [] := by
  simp only [initGetHandler, htoken, if_neg hgate, hreg]
  simp [ResponsePack, GoMap.assign, ResponseWrite, GoMap.index, GoMap.lookup, kvSet, kvDel,
    kvGet]

/-- The POST closure has no branch for a failed lookup: applied to a path whose key is
not registered, which is none of the routes it is installed under, it would reach
label `ResponseWrite` with the nil map and write nothing. -/
theorem initPostHandler_unregistered (E : ErrPkg) (rt : restServer) (r : Request)
    (callerKey : String) (errCode : Int) (detail : Value)
    (htoken : rt.checkAccessToken (r.FormValue "auth_type") (r.FormValue "access_token")
      = (callerKey, errCode, detail))
    (hgate : ¬ (errCode > 0 ∧ r.Path ≠ Api_OauthServerAddr))
    (hreg : actionAt rt.postMap (getPath r.Path) = none) :
    (initPostHandler E rt r).written = none ∧ (initPostHandler E rt r).calls = [] := by
  simp only [initPostHandler, htoken, if_neg hgate, hreg]
  simp [ResponseWrite, GoMap.index, GoMap.lookup]

/-- Every route the POST closure is installed under is a literal key that `getPath`
leaves as it is, so the lookup `rt.postMap[rt.getPath(r.URL.Path)]` finds an action. -/
theorem postRoutes_registered (H : Handlers)
    (check : String → String → String × Int × Value) (path : String)
    (hroute : path ∈ postRoutes (InitRestServer H check)) :
    getPath path = path ∧
    ∃ h, actionAt (InitRestServer H check).postMap (getPath path) = some h := by
  have hkeys : postRoutes (InitRestServer H check)
      = [Api_SendRawTransaction, Api_SendCustomRecordTxByTransfer, Api_OauthServerAddr,
         Api_NoticeServerAddr, Api_NoticeServerState, Api_WebsocketState] := rfl
  rw [hkeys] at hroute
  simp only [List.mem_cons, List.mem_singleton, List.not_mem_nil, or_false] at hroute
  rcases hroute with h | h | h | h | h | h <;> subst h <;> exact ⟨by decide, _, rfl⟩

/-- C5: a request that passes the authorization gate and whose path, after `getPath`, is
no key of the registry of its method class runs no handler and gets a non-nil
envelope with `Error = Err.INVALID_METHOD` and `Desc = Err.ErrMap[Err.INVALID_METHOD]`.
For GET this is the `else` branch of the closure, for every path. For POST every
route the closure is installed under is a registered key that `getPath` leaves
unchanged, so the lookup always finds an action and no request is in the case;
whatever either closure writes is a non-nil map. -/
theorem unregistered_key_is_invalid_method (E : ErrPkg) (H : Handlers)
    (check : String → String → String × Int × Value) (r : Request)
    (callerKey : String) (errCode : Int) (detail : Value)
    (htoken : check (r.FormValue "auth_type") (r.FormValue "access_token")
      = (callerKey, errCode, detail))
    (hgate : ¬ (errCode > 0 ∧ r.Path ≠ Api_OauthServerAddr)) :
    (actionAt (InitRestServer H check).getMap (getPath r.Path) = none →
      (∃ env, (initGetHandler E (InitRestServer H check) r).written = some env ∧
        env ≠ .nil ∧
        env.lookup "Error" = some (.int64 E.INVALID_METHOD) ∧
        env.lookup "Desc" = some (.str (E.desc E.INVALID_METHOD))) ∧
      (initGetHandler E (InitRestServer H check) r).calls = []) ∧
    (r.Path ∈ postRoutes (InitRestServer H check) →
      getPath r.Path = r.Path ∧
      ∃ h, actionAt (InitRestServer H check).postMap (getPath r.Path) = some h) ∧
    (r.Path ∈ postRoutes (InitRestServer H check) →
      actionAt (InitRestServer H check).postMap (getPath r.Path) = none →
      (∃ env, (initPostHandler E (InitRestServer H check) r).written = some env ∧
        env ≠ .nil ∧
        env.lookup "Error" = some (.int64 E.INVALID_METHOD) ∧
        env.lookup "Desc" = some (.str (E.desc E.INVALID_METHOD))) ∧
      (initPostHandler E (InitRestServer H check) r).calls = []) ∧
    (∀ env, ((initGetHandler E (InitRestServer H check) r).written = some env ∨
        (initPostHandler E (InitRestServer H check) r).written = some env) →
      env ≠ .nil) := by
  have htok : (InitRestServer H check).checkAccessToken (r.FormValue "auth_type")
      (r.FormValue "access_token") = (callerKey, errCode, detail) := htoken
  refine ⟨?_, ?_, ?_, ?_⟩
  · intro hmiss
    exact initGetHandler_unregistered E _ r callerKey errCode detail htok hgate hmiss
  · intro hroute
    exact postRoutes_registered H check r.Path hroute
  · intro hroute hmiss
    obtain ⟨_, h, hh⟩ := postRoutes_registered H check r.Path hroute
    rw [hmiss] at hh
    exact Option.noConfusion hh
  · intro env hw hnil
    subst hnil
    rcases hw with hw | hw
    · obtain ⟨code, he, _⟩ := initGetHandler_written E _ r _ hw
      exact Option.noConfusion he
    · obtain ⟨code, he, _⟩ := initPostHandler_written E _ r _ hw
      exact Option.noConfusion he

/-- Worked example for C5: an authorized GET to `/api/v1/block/hash/100`, a path the
router delivers under the template `/api/v1/block/hash/:height` and `getPath` leaves
unregistered, gets the `INVALID_METHOD` envelope and runs no handler; the POST
route `/api/v1/transaction` is mapped to itself and found in the registry. -/
theorem unregistered_key_is_invalid_method_witness :
    allowToken "" "" = ("CA1", 0, .nil) ∧
    ¬ ((0 : Int) > 0 ∧ ("/api/v1/block/hash/100" : String) ≠ Api_OauthServerAddr) ∧
    ((∃ env, (initGetHandler sampleErr (InitRestServer sampleHandlers allowToken)
          (sampleRequest "/api/v1/block/hash/100" .invalid)).written = some env ∧
        env ≠ .nil ∧
        env.lookup "Error" = some (.int64 42001) ∧
        env.lookup "Desc" = some (.str (sampleErr.desc 42001))) ∧
      (initGetHandler sampleErr (InitRestServer sampleHandlers allowToken)
          (sampleRequest "/api/v1/block/hash/100" .invalid)).calls = []) ∧
    (getPath "/api/v1/transaction" = "/api/v1/transaction" ∧
      ∃ h, actionAt (InitRestServer sampleHandlers allowToken).postMap
        (getPath "/api/v1/transaction") = some h) :=
  ⟨rfl, by decide,
    (unregistered_key_is_invalid_method sampleErr sampleHandlers allowToken
      (sampleRequest "/api/v1/block/hash/100" .invalid) "CA1" 0 .nil rfl (by decide)).1 rfl,
    (unregistered_key_is_invalid_method sampleErr sampleHandlers allowToken
      (sampleRequest "/api/v1/transaction" (.object [])) "CA1" 0 .nil rfl (by decide)).2.1
      (by decide)⟩

/-- The POST closure on a registered key with a body `json.Unmarshal` rejects: the
handler does not run and the `Err.ILLEGAL_DATAFORMAT` envelope is written under the
registered action name. -/
theorem initPostHandler_invalid_body (E : ErrPkg) (rt : restServer) (r : Request)
    (callerKey : String) (errCode : Int) (detail : Value) (h : Action)
    (htoken : rt.checkAccessToken (r.FormValue "auth_type") (r.FormValue "access_token")
      = (callerKey, errCode, detail))
    (hgate : ¬ (errCode > 0 ∧ r.Path ≠ Api_OauthServerAddr))
    (hreg : actionAt rt.postMap (getPath r.Path) = some h)
    (hbody : r.body = .invalid) :
    (∃ env, (initPostHandler E rt r).written = some env ∧
      env.lookup "Error" = some (.int64 E.ILLEGAL_DATAFORMAT) ∧
      env.lookup "Action" = some (.str h.name)) ∧
    (initPostHandler E rt r).calls = [] := by
  simp only [initPostHandler, htoken, if_neg hgate, hreg, hbody, Body.unmarshal]
  simp [ResponsePack, GoMap.assign, ResponseWrite, GoMap.index, GoMap.lookup, kvSet, kvDel,
    kvGet]

/-- C6, the code at a failing input: an authorized POST to `/api/v1/transaction` whose
body is the JSON value `null` passes `json.Unmarshal` with `reqMsg` set to nil, so
the closure panics at `reqMsg["CAkey"] = CAkey`: nothing is written and no handler
runs, while a malformed body on the same route gets the `ILLEGAL_DATAFORMAT`
envelope. -/
theorem post_null_body_writes_nothing :
    (initPostHandler sampleErr (InitRestServer sampleHandlers allowToken)
        (sampleRequest "/api/v1/transaction" .null)).written = none ∧
    (initPostHandler sampleErr (InitRestServer sampleHandlers allowToken)
        (sampleRequest "/api/v1/transaction" .null)).calls = [] ∧
    (initPostHandler sampleErr (InitRestServer sampleHandlers allowToken)
        (sampleRequest "/api/v1/transaction" .invalid)).written
      = some (.mk [("Desc", .str "ILLEGAL DATAFORMAT"), ("Action", .str "sendrawtransaction"),
          ("Result", .str ""), ("Error", .int64 41003)]) := by
  refine ⟨?_, ?_, ?_⟩ <;> decide

/-! ## Descriptions come from the table -/

/-- C7: every map that reaches label `ResponseWrite` with an `int64` under `Error`,
from a handler or built by the closure, is written with `Desc = Err.ErrMap[Error]`
in place of any `Desc` it had, its other keys unchanged; and every envelope the
GET or POST closure writes has an `int64` under `Error` and under `Desc` the table
entry of that code. This holds for every code, so for every code in the table. -/
theorem desc_is_table_entry (E : ErrPkg) :
    (∀ (calls : List (String × GoMap)) (pushed : List (String × String)) (resp : GoMap)
        (code : Int), resp.index "Error" = .int64 code →
      ∃ env, (ResponseWrite E calls pushed (.ok resp)).written = some env ∧
        env.lookup "Desc" = some (.str (E.desc code)) ∧
        env.lookup "Error" = some (.int64 code) ∧
        ∀ key, key ≠ "Desc" → env.lookup key = resp.lookup key) ∧
    (∀ (rt : restServer) (r : Request) (env : GoMap),
      ((initGetHandler E rt r).written = some env ∨
        (initPostHandler E rt r).written = some env) →
      ∃ code, env.lookup "Error" = some (.int64 code) ∧
        env.lookup "Desc" = some (.str (E.desc code))) := by
  refine ⟨fun calls pushed resp code h => ResponseWrite_ok E calls pushed resp code h, ?_⟩
  intro rt r env h
  rcases h with h | h
  · exact initGetHandler_written E rt r env h
  · exact initPostHandler_written E rt r env h

/-- Worked example for C7: a handler answer with code 41003 and its own `Desc` is
written with the table entry of 41003, and the envelope of an authorized GET to
the block-height route has the table entry of its code 0. -/
theorem desc_is_table_entry_witness :
    (GoMap.mk [("Error", .int64 41003), ("Desc", .str "set by handler")]).index "Error"
      = .int64 41003 ∧
    (∃ env, (ResponseWrite sampleErr [] []
        (.ok (.mk [("Error", .int64 41003), ("Desc", .str "set by handler")]))).written
        = some env ∧
      env.lookup "Desc" = some (.str "ILLEGAL DATAFORMAT") ∧
      env.lookup "Error" = some (.int64 41003) ∧
      ∀ key, key ≠ "Desc" → env.lookup key
        = (GoMap.mk [("Error", .int64 41003), ("Desc", .str "set by handler")]).lookup key) ∧
    (∃ code,
      (GoMap.mk [("Desc", .str "SUCCESS"), ("Action", .str "getblockheight"),
        ("Error", .int64 0), ("Result", .str "GetBlockHeight")]).lookup "Error"
        = some (.int64 code) ∧
      (GoMap.mk [("Desc", .str "SUCCESS"), ("Action", .str "getblockheight"),
        ("Error", .int64 0), ("Result", .str "GetBlockHeight")]).lookup "Desc"
        = some (.str (sampleErr.desc code))) :=
  ⟨by decide,
    (desc_is_table_entry sampleErr).1 [] []
      (.mk [("Error", .int64 41003), ("Desc", .str "set by handler")]) 41003 (by decide),
    (desc_is_table_entry sampleErr).2 (InitRestServer sampleHandlers allowToken)
      (sampleRequest "/api/v1/block/height" .invalid) _ (Or.inl (by decide))⟩

/-! ## The `sendRawTransaction` wrapper -/

/-- C8 as stated fails: a `SendRawTransaction` answer whose `Userid` is the empty
string comes back from the wrapper unchanged, with its `Userid` key still present,
so not every result map loses the key. -/
theorem sendRawTransaction_keeps_empty_Userid :
    (emptyUseridReply .nil).ret
      = .ok (.mk [("Error", .int64 0), ("Result", .str "2f0a"), ("Userid", .str "")]) ∧
    (sendRawTransaction emptyUseridReply .nil).ret
      = .ok (.mk [("Error", .int64 0), ("Result", .str "2f0a"), ("Userid", .str "")]) ∧
    (GoMap.mk [("Error", .int64 0), ("Result", .str "2f0a"), ("Userid", .str "")]).lookup
      "Userid" = some (.str "") ∧
    ¬ (∀ (S : handler) (cmd resp env : GoMap), (S cmd).ret = .ok resp →
        (sendRawTransaction S cmd).ret = .ok env → env.lookup "Userid" = none) := by
  refine ⟨rfl, by decide, by decide, ?_⟩
  intro h
  have h2 := h emptyUseridReply .nil
    (.mk [("Error", .int64 0), ("Result", .str "2f0a"), ("Userid", .str "")])
    (.mk [("Error", .int64 0), ("Result", .str "2f0a"), ("Userid", .str "")]) rfl (by decide)
  revert h2
  decide

/-- C8, amended: when the answer of `SendRawTransaction` holds a non-empty string
under `Userid` and a string under `Result`, the wrapper reports the pair to
`SetTxHashMap` and returns the answer without the `Userid` key, every other key
unchanged; when `Userid` is absent, not a string or empty, the wrapper returns the
answer as it is. -/
theorem sendRawTransaction_strips_Userid (S : handler) (cmd resp : GoMap)
    (hret : (S cmd).ret = .ok resp) :
    (∀ userid txHash, resp.index "Userid" = .str userid → 0 < userid.length →
      resp.index "Result" = .str txHash →
      ∃ env, (sendRawTransaction S cmd).ret = .ok env ∧
        env.lookup "Userid" = none ∧
        (∀ key, key ≠ "Userid" → env.lookup key = resp.lookup key) ∧
        (sendRawTransaction S cmd).pushed = (S cmd).pushed ++ [(txHash, userid)]) ∧
    ((∀ userid, resp.index "Userid" = .str userid → userid.length = 0) →
      sendRawTransaction S cmd = S cmd) := by
  constructor
  · intro userid txHash hu hlen hres
    refine ⟨resp.delete "Userid", ?_, ?_, ?_, ?_⟩
    · simp [sendRawTransaction, hret, hu, hlen, hres]
    · cases resp with
      | nil => rfl
      | mk kvs => simp [GoMap.delete, GoMap.lookup, kvGet_kvDel_self]
    · intro key hkey
      cases resp with
      | nil => rfl
      | mk kvs => simp [GoMap.delete, GoMap.lookup, kvGet_kvDel_ne kvs "Userid" key hkey]
    · simp [sendRawTransaction, hret, hu, hlen, hres]
  · intro hall
    unfold sendRawTransaction
    simp only [hret]
    cases hu : resp.index "Userid" with
    | str userid =>
      have h0 : ¬ 0 < userid.length := by
        have := hall userid hu
        omega
      simp [h0]
    | nil => rfl
    | int64 n => rfl
    | bool b => rfl
    | other t => rfl

/-- Worked example for C8: an answer with `Userid = "u7"` and `Result = "2f0a"` loses
the `Userid` key and is reported to `SetTxHashMap`; an answer with an empty
`Userid` comes back unchanged. -/
theorem sendRawTransaction_strips_Userid_witness :
    (ownedReply .nil).ret
      = .ok (.mk [("Error", .int64 0), ("Result", .str "2f0a"), ("Userid", .str "u7")]) ∧
    (∃ env, (sendRawTransaction ownedReply .nil).ret = .ok env ∧
      env.lookup "Userid" = none ∧
      (∀ key, key ≠ "Userid" → env.lookup key
        = (GoMap.mk [("Error", .int64 0), ("Result", .str "2f0a"),
            ("Userid", .str "u7")]).lookup key) ∧
      (sendRawTransaction ownedReply .nil).pushed = (ownedReply .nil).pushed ++ [("2f0a", "u7")]) ∧
    sendRawTransaction emptyUseridReply .nil = emptyUseridReply .nil :=
  ⟨rfl,
    (sendRawTransaction_strips_Userid ownedReply .nil _ rfl).1 "u7" "2f0a"
      (by decide) (by decide) (by decide),
    (sendRawTransaction_strips_Userid emptyUseridReply .nil _ rfl).2
      (fun userid hu => by
        have h : (GoMap.mk [("Error", .int64 0), ("Result", .str "2f0a"),
            ("Userid", .str "")]).index "Userid" = .str "" := by decide
        rw [h] at hu
        cases hu
        rfl)⟩

/-! ## Listener choice of `Start` -/

/-- C9: the listener `Start` asks for depends on the configured port only. With port 0
it makes no call and returns the server as it was; with a non-zero port whose
remainder modulo 1000 is 443 it calls `initTlsListen` and never `net.Listen`; with
any other non-zero port it calls `net.Listen` on that port and never
`initTlsListen`. -/
theorem Start_listener_choice (port : Int) (sys : Sys) (rt : restServer) :
    (∀ (sys2 : Sys) (rt2 : restServer),
      (Start port sys rt).2.head? = (Start port sys2 rt2).2.head?) ∧
    (port = 0 → Start port sys rt = (rt, [])) ∧
    (port ≠ 0 → port.tmod 1000 = 443 →
      (Start port sys rt).2.head? = some .initTlsListen ∧
      ∀ p, StartStep.netListen p ∉ (Start port sys rt).2) ∧
    (port ≠ 0 → port.tmod 1000 ≠ 443 →
      (Start port sys rt).2.head? = some (.netListen port) ∧
      StartStep.initTlsListen ∉ (Start port sys rt).2) := by
  refine ⟨?_, ?_, ?_, ?_⟩
  · intro sys2 rt2
    by_cases h0 : port = 0
    · simp [Start, h0]
    · by_cases h1 : port.tmod 1000 = 443
      · simp only [Start, if_neg h0, h1]
        cases initTlsListen sys port <;> cases initTlsListen sys2 port <;> simp
      · simp only [Start, if_neg h0, h1]
        cases sys.netListen port <;> cases sys2.netListen port <;> simp
  · intro h0
    simp [Start, h0]
  · intro h0 h1
    simp only [Start, if_neg h0, h1]
    cases initTlsListen sys port <;> simp
  · intro h0 h1
    simp only [Start, if_neg h0, h1]
    cases sys.netListen port <;> simp

/-- Worked example for C9: port 0 starts nothing, port 10443 takes the TLS listener,
port 20334 and the negative port -557 take the plain TCP listener. -/
theorem Start_listener_choice_witness :
    Start 0 sampleSys (InitRestServer sampleHandlers allowToken)
      = (InitRestServer sampleHandlers allowToken, []) ∧
    ((10443 : Int) ≠ 0 ∧ (10443 : Int).tmod 1000 = 443 ∧
      (Start 10443 sampleSys (InitRestServer sampleHandlers allowToken)).2.head?
        = some .initTlsListen) ∧
    ((20334 : Int) ≠ 0 ∧ (20334 : Int).tmod 1000 ≠ 443 ∧
      (Start 20334 sampleSys (InitRestServer sampleHandlers allowToken)).2.head?
        = some (.netListen 20334)) ∧
    ((-557 : Int) ≠ 0 ∧ (-557 : Int).tmod 1000 ≠ 443 ∧
      (Start (-557) sampleSys (InitRestServer sampleHandlers allowToken)).2.head?
        = some (.netListen (-557))) :=
  ⟨(Start_listener_choice 0 sampleSys (InitRestServer sampleHandlers allowToken)).2.1 rfl,
    ⟨by decide, by decide,
      ((Start_listener_choice 10443 sampleSys (InitRestServer sampleHandlers allowToken)).2.2.1
        (by decide) (by decide)).1⟩,
    ⟨by decide, by decide,
      ((Start_listener_choice 20334 sampleSys (InitRestServer sampleHandlers allowToken)).2.2.2
        (by decide) (by decide)).1⟩,
    ⟨by decide, by decide,
      ((Start_listener_choice (-557) sampleSys (InitRestServer sampleHandlers allowToken)).2.2.2
        (by decide) (by decide)).1⟩⟩

/-! ## The path matcher -/

/-- The four patterns `getPath` searches for, as computed by `strings.TrimRight`. -/
theorem TrimRight_templates :
    strings.TrimRight Api_Getblockbyheight ":height" = "/api/v1/block/details/height/" ∧
    strings.TrimRight Api_Getblockbyhash ":hash" = "/api/v1/block/details/hash/" ∧
    strings.TrimRight Api_Gettransaction ":hash" = "/api/v1/transaction/" ∧
    strings.TrimRight Api_Getasset ":hash" = "/api/v1/asset/" := by
  decide

/-- C10 as stated fails: `getPath` answers with the asset-by-hash template for the path
`/x/api/v1/asset/abc`, which does not start with `/api/v1/asset/`. -/
theorem getPath_template_not_from_start :
    getPath "/x/api/v1/asset/abc" = Api_Getasset ∧
    strings.startsWith "/x/api/v1/asset/abc" "/api/v1/asset/" = false ∧
    ¬ (∀ u : String,
        (getPath u = Api_Getblockbyheight →
          strings.startsWith u "/api/v1/block/details/height/" = true) ∧
        (getPath u = Api_Getblockbyhash →
          strings.startsWith u "/api/v1/block/details/hash/" = true) ∧
        (getPath u = Api_Gettransaction →
          strings.startsWith u "/api/v1/transaction/" = true) ∧
        (getPath u = Api_Getasset → strings.startsWith u "/api/v1/asset/" = true)) := by
  refine ⟨by decide, by decide, ?_⟩
  intro h
  have h2 := (h "/x/api/v1/asset/abc").2.2.2 (by decide)
  revert h2
  decide

/-- C10, amended: when `getPath` answers with one of the four parameterized templates,
the path contains the literal part of that template, the template without its
trailing placeholder, somewhere, not necessarily at its start; for the
asset-by-hash template the path is moreover not the unspent-output path. -/
theorem getPath_template_contains (u : String) :
    (getPath u = Api_Getblockbyheight →
      strings.Contains u "/api/v1/block/details/height/" = true) ∧
    (getPath u = Api_Getblockbyhash →
      strings.Contains u "/api/v1/block/details/hash/" = true) ∧
    (getPath u = Api_Gettransaction → strings.Contains u "/api/v1/transaction/" = true) ∧
    (getPath u = Api_Getasset →
      strings.Contains u "/api/v1/asset/" = true ∧ u ≠ Api_GetUnspendOutput) := by
  obtain ⟨t1, t2, t3, t4⟩ := TrimRight_templates
  unfold getPath
  rw [t1, t2, t3, t4]
  by_cases h1 : strings.Contains u "/api/v1/block/details/height/" = true
  · simp only [if_pos h1]
    refine ⟨fun _ => h1, ?_, ?_, ?_⟩ <;> intro h <;> exact absurd h (by decide)
  · simp only [if_neg h1]
    by_cases h2 : strings.Contains u "/api/v1/block/details/hash/" = true
    · simp only [if_pos h2]
      refine ⟨?_, fun _ => h2, ?_, ?_⟩ <;> intro h <;> exact absurd h (by decide)
    · simp only [if_neg h2]
      by_cases h3 : strings.Contains u "/api/v1/transaction/" = true
      · simp only [if_pos h3]
        refine ⟨?_, ?_, fun _ => h3, ?_⟩ <;> intro h <;> exact absurd h (by decide)
      · simp only [if_neg h3]
        by_cases h4 : strings.Contains u "/api/v1/asset/" = true
        · simp only [if_pos h4]
          by_cases h5 : u = Api_GetUnspendOutput
          · subst h5
            decide
          · rw [if_pos (show u ≠ Api_GetUnspendOutput from h5)]
            refine ⟨?_, ?_, ?_, fun _ => ⟨h4, h5⟩⟩ <;> intro h <;> exact absurd h (by decide)
        · simp only [if_neg h4]
          refine ⟨?_, ?_, ?_, ?_⟩
          · intro h; subst h; exact absurd (by decide) h1
          · intro h; subst h; exact absurd (by decide) h2
          · intro h; subst h; exact absurd (by decide) h3
          · intro h; subst h; exact absurd (by decide) h4

/-- Worked example for C10: `/x/api/v1/asset/abc` is mapped to the asset-by-hash
template and contains `/api/v1/asset/`. -/
theorem getPath_template_contains_witness :
    getPath "/x/api/v1/asset/abc" = Api_Getasset ∧
    strings.Contains "/x/api/v1/asset/abc" "/api/v1/asset/" = true ∧
    ("/x/api/v1/asset/abc" : String) ≠ Api_GetUnspendOutput :=
  ⟨by decide,
    ((getPath_template_contains "/x/api/v1/asset/abc").2.2.2 (by decide)).1,
    ((getPath_template_contains "/x/api/v1/asset/abc").2.2.2 (by decide)).2⟩

theorem containsList_iff_infix (s substr : List Char) :
    strings.containsList s substr = true ↔ substr <:+: s := by
  induction s with
  | nil => simp [strings.containsList, List.infix_nil]
  | cons c cs ih =>
    simp only [strings.containsList, Bool.or_eq_true, List.isPrefixOf_iff_prefix, ih,
      List.infix_cons_iff]

/-- A pattern that ends in a slash and occurs in `p ++ seg`, where `seg` has no slash,
occurs in `p` already. -/
theorem infix_of_infix_append (q p seg : List Char) (hseg : '/' ∉ seg)
    (h : q ++ ['/'] <:+: p ++ seg) : q ++ ['/'] <:+: p := by
  obtain ⟨a, b, hab⟩ := h
  rw [List.append_eq_append_iff] at hab
  rcases hab with ⟨t, hp, _⟩ | ⟨t, hp, hs⟩
  · exact ⟨a, t, hp.symm⟩
  · rw [← List.append_assoc, List.append_eq_append_iff] at hp
    rcases hp with ⟨t2, hp2, ht⟩ | ⟨t2, _, ht⟩
    · rcases List.append_eq_cons_iff.1 ht.symm with ⟨h1, h2⟩ | ⟨t3, h1, h2⟩
      · exfalso
        apply hseg
        rw [hs, h2]
        simp
      · have ht3 : t3 = [] ∧ t = [] := by simpa using h2
        refine ⟨a, [], ?_⟩
        rw [hp2, h1, ht3.1]
        simp
    · exfalso
      apply hseg
      rw [hs, ht]
      simp

/-- Whether a pattern ending in a slash occurs in `p ++ seg` is decided on `p` alone
when `seg` has no slash. -/
theorem Contains_append_false (p pat seg : String) (q : List Char)
    (hpat : pat.data = q ++ ['/']) (hseg : '/' ∉ seg.data)
    (hp : strings.Contains p pat = false) : strings.Contains (p ++ seg) pat = false := by
  cases hc : strings.Contains (p ++ seg) pat with
  | false => rfl
  | true =>
    exfalso
    simp only [strings.Contains, String.data_append, containsList_iff_infix, hpat] at hc
    have h2 := infix_of_infix_append q p.data seg.data hseg hc
    rw [← hpat, ← containsList_iff_infix] at h2
    simp only [strings.Contains] at hp
    rw [hp] at h2
    exact Bool.noConfusion h2

theorem Contains_append_self (p seg : String) : strings.Contains (p ++ seg) p = true := by
  simp only [strings.Contains, String.data_append, containsList_iff_infix]
  exact ⟨[], seg.data, rfl⟩

/-- The four templates `getPath` knows: a path made of the literal part of the template
and one segment without a slash is mapped to the template. -/
theorem getPath_segment (seg : String) (hseg : '/' ∉ seg.data) :
    getPath ("/api/v1/block/details/height/" ++ seg) = Api_Getblockbyheight ∧
    getPath ("/api/v1/block/details/hash/" ++ seg) = Api_Getblockbyhash ∧
    getPath ("/api/v1/transaction/" ++ seg) = Api_Gettransaction ∧
    (seg ≠ "unspendoutput" → getPath ("/api/v1/asset/" ++ seg) = Api_Getasset) := by
  obtain ⟨t1, t2, t3, t4⟩ := TrimRight_templates
  unfold getPath
  rw [t1, t2, t3, t4]
  refine ⟨?_, ?_, ?_, ?_⟩
  · rw [if_pos (Contains_append_self _ seg)]
  · have h1 := Contains_append_false "/api/v1/block/details/hash/"
      "/api/v1/block/details/height/" seg "/api/v1/block/details/height".data rfl hseg
      (by decide)
    rw [h1, if_pos (Contains_append_self _ seg)]
    simp
  · have h1 := Contains_append_false "/api/v1/transaction/"
      "/api/v1/block/details/height/" seg "/api/v1/block/details/height".data rfl hseg
      (by decide)
    have h2 := Contains_append_false "/api/v1/transaction/"
      "/api/v1/block/details/hash/" seg "/api/v1/block/details/hash".data rfl hseg
      (by decide)
    rw [h1, h2, if_pos (Contains_append_self _ seg)]
    simp
  · intro hne
    have h1 := Contains_append_false "/api/v1/asset/"
      "/api/v1/block/details/height/" seg "/api/v1/block/details/height".data rfl hseg
      (by decide)
    have h2 := Contains_append_false "/api/v1/asset/"
      "/api/v1/block/details/hash/" seg "/api/v1/block/details/hash".data rfl hseg
      (by decide)
    have h3 := Contains_append_false "/api/v1/asset/"
      "/api/v1/transaction/" seg "/api/v1/transaction".data rfl hseg
      (by decide)
    have h5 : "/api/v1/asset/" ++ seg ≠ Api_GetUnspendOutput := by
      intro e
      apply hne
      have e2 := congrArg String.data e
      rw [String.data_append] at e2
      have e3 : "/api/v1/asset/".data ++ seg.data
          = "/api/v1/asset/".data ++ "unspendoutput".data := by
        rw [e2]; decide
      exact String.ext (List.append_cancel_left e3)
    rw [h1, h2, h3, if_pos (Contains_append_self _ seg), if_pos h5]
    simp

/-- C3, the code at a failing input: `getPath` has no case for the template
`/api/v1/block/hash/:height`, so the path `/api/v1/block/hash/100` is returned as it
is, it is no key of `rt.getMap`, and an authorized GET runs no handler and gets the
`INVALID_METHOD` envelope; the block-by-height paths of the claim do resolve to
the action `getblockbyheight`. -/
theorem getPath_misses_blockhash :
    getPath "/api/v1/block/hash/100" = "/api/v1/block/hash/100" ∧
    getPath "/api/v1/block/hash/100" ≠ Api_Getblockhash ∧
    (actionAt (InitRestServer sampleHandlers allowToken).getMap Api_Getblockhash).map Action.name
      = some "getblockhash" ∧
    (actionAt (InitRestServer sampleHandlers allowToken).getMap
        (getPath "/api/v1/block/hash/100")).map Action.name = none ∧
    (initGetHandler sampleErr (InitRestServer sampleHandlers allowToken)
        (sampleRequest "/api/v1/block/hash/100" .invalid)).calls = [] ∧
    (initGetHandler sampleErr (InitRestServer sampleHandlers allowToken)
        (sampleRequest "/api/v1/block/hash/100" .invalid)).written
      = some (.mk [("Desc", .str "INVALID METHOD"), ("Action", .str ""), ("Result", .str ""),
          ("Error", .int64 42001)]) ∧
    (actionAt (InitRestServer sampleHandlers allowToken).getMap
        (getPath "/api/v1/block/details/height/100")).map Action.name
      = some "getblockbyheight" ∧
    (actionAt (InitRestServer sampleHandlers allowToken).getMap
        (getPath "/api/v1/block/details/height/100?ignored=1")).map Action.name
      = some "getblockbyheight" := by
  refine ⟨?_, ?_, ?_, ?_, ?_, ?_, ?_, ?_⟩ <;> decide

end restful
